import Mathlib

/-!
Shallow embedding of `src/types/excelsheet.rs` (fastexcel): the header-offset
model, the typed column projectors over a calamine cell grid, the lazily
memoized width/height of a sheet, and the `TryFrom<&ExcelSheet> for
RecordBatch` conversion entry point.

Conventions of the embedding:
- Rust `usize` is `Nat`; subtraction appears only where the source subtracts
  (`height - offset`), and theorems about it carry the caller precondition
  `offset ≤ height` stated by the spec.
- The calamine cell type and its extraction methods are not part of this
  repository's sources; they are modelled from the spec's interface
  description (tagged-union cell, one optional extraction per target type).
  `f64` cell payloads are modelled as exact rationals, which is faithful for
  every claim at issue (no rounding is ever exercised).
- `&mut self` methods (`width`, `height`) are modelled state-passing, as
  functions returning the value together with the updated sheet.
- `unreachable!()` is modelled as a distinguished `ConvResult.unreachable`
  outcome, kept apart from the recoverable `anyhow::Error` outcome.
-/

namespace Excelsheet

/-- Modelled from the spec: the dynamically-typed spreadsheet cell produced by
the external parsing collaborator (calamine `DataType`, whose source is not
part of this repository): one of boolean, integer, float, text, datetime,
empty. Float payloads are modelled as exact rationals. -/
inductive CellValue where
  | bool (b : Bool)
  | int (i : Int)
  | float (f : Rat)
  | text (s : String)
  | datetime (millis : Int)
  | empty
deriving DecidableEq

namespace CellValue

/-- Modelled from the spec: type-tagged boolean extraction, value-or-absent
(calamine `get_bool`). -/
def get_bool : CellValue → Option Bool
  | .bool b => some b
  | _ => none

/-- Modelled from the spec: type-tagged 64-bit signed integer extraction,
value-or-absent (calamine `get_int`): an integer-typed cell yields its value,
every other cell is absent. -/
def get_int : CellValue → Option Int
  | .int i => some i
  | _ => none

/-- Modelled from the spec: 64-bit float extraction, value-or-absent (calamine
`get_float`). Per the spec's Float scenario, an integer-valued cell coerces to
the equal float value; a text cell does not coerce. -/
def get_float : CellValue → Option Rat
  | .float f => some f
  | .int i => some (i : Rat)
  | _ => none

/-- Modelled from the spec: UTF-8 string extraction, value-or-absent (calamine
`get_string`). -/
def get_string : CellValue → Option String
  | .text s => some s
  | _ => none

/-- Modelled from the spec: date/time interpretation of a cell, as epoch
milliseconds, value-or-absent (calamine `as_datetime` composed with
`timestamp_millis`). -/
def as_datetime_millis : CellValue → Option Int
  | .datetime m => some m
  | _ => none

end CellValue

/-- Modelled from the spec: the read-only rectangular cell grid view
(calamine `Range<DataType>`, external collaborator): `width()`, `height()`,
and `get (row, col)` returning an optional cell (absent outside the range). -/
structure Range where
  height : Nat
  width : Nat
  get : Nat → Nat → Option CellValue

/-- Header configuration from the source: `None`, `At(usize)`, `With(Vec<String>)`.
(`At`/`With` are Lean keywords, hence `atRow`/`withNames`.) -/
inductive Header where
  | none
  | atRow (index : Nat)
  | withNames (names : List String)
deriving DecidableEq

namespace Header

/-- Constructor `Header::new`: an explicit column-name list wins over an explicit
header-row index, which wins over no header. -/
def new (header_row : Option Nat) (column_names : Option (List String)) : Header :=
  match column_names with
  | some headers => Header.withNames headers
  | Option.none =>
    match header_row with
    | some row => Header.atRow row
    | Option.none => Header.none

/-- Accessor `Header::header_offset`: `At(index) → index + 1`, `None → 0`,
`With(_) → 0`. -/
def header_offset : Header → Nat
  | Header.atRow index => index + 1
  | Header.none => 0
  | Header.withNames _ => 0

end Header

/-- The arrow data types the conversion dispatches on; `other` stands for
every `ArrowDataType` outside the six handled arms (the `_ => unreachable!()`
branch). -/
inductive ArrowDataType where
  | boolean
  | int64
  | float64
  | utf8
  | date64
  | null
  | other
deriving DecidableEq

/-- A materialized typed column: one strongly typed array of optional values
per supported arrow type, plus the all-null array (`NullArray::new`). -/
inductive TypedArray where
  | booleanArr (xs : List (Option Bool))
  | intArr (xs : List (Option Int))
  | floatArr (xs : List (Option Rat))
  | stringArr (xs : List (Option String))
  | dateArr (xs : List (Option Int))
  | nullArr (len : Nat)
deriving DecidableEq

/-- Length of a typed column. -/
def TypedArray.len : TypedArray → Nat
  | .booleanArr xs => xs.length
  | .intArr xs => xs.length
  | .floatArr xs => xs.length
  | .stringArr xs => xs.length
  | .dateArr xs => xs.length
  | .nullArr len => len

/-- The sheet aggregate (`ExcelSheet` struct): name, declared schema
(ordered (name, type) pairs), header configuration, cell grid, and the two
lazily memoized geometry caches. -/
structure ExcelSheet where
  name : String
  schema : List (String × ArrowDataType)
  header : Header
  data : Range
  height : Option Nat
  width : Option Nat

namespace ExcelSheet

/-- Constructor `ExcelSheet::new`: caches start unset. -/
def new (name : String) (schema : List (String × ArrowDataType)) (data : Range)
    (header : Header) : ExcelSheet :=
  { name := name, schema := schema, header := header, data := data,
    height := Option.none, width := Option.none }

/-- Accessor `ExcelSheet::offset`: delegates to the header model. -/
def offset (s : ExcelSheet) : Nat :=
  s.header.header_offset

/-- Method `fn width(&mut self)`: return the cached width if set, otherwise compute
`data.width()`, store it and return it. State-passing model of the `&mut self`
method. -/
def widthM (s : ExcelSheet) : Nat × ExcelSheet :=
  match s.width with
  | some w => (w, s)
  | Option.none =>
    let w := s.data.width
    (w, { s with width := some w })

/-- Method `fn height(&mut self)`: return the cached height if set, otherwise compute
`data.height() - offset()`, store it and return it. State-passing model of the
`&mut self` method. -/
def heightM (s : ExcelSheet) : Nat × ExcelSheet :=
  match s.height with
  | some h => (h, s)
  | Option.none =>
    let h := s.data.height - s.offset
    (h, { s with height := some h })

end ExcelSheet

/-- Projector `create_boolean_array`: rows `offset..height` of column `col`, each cell
projected through `get_bool`, absent-or-mismatch becoming null. -/
def create_boolean_array (data : Range) (col offset height : Nat) :
    List (Option Bool) :=
  (List.range' offset (height - offset)).map fun row =>
    (data.get row col).bind CellValue.get_bool

/-- Projector `create_int_array`: rows `offset..height` of column `col`, each cell
projected through `get_int`, absent-or-mismatch becoming null. -/
def create_int_array (data : Range) (col offset height : Nat) :
    List (Option Int) :=
  (List.range' offset (height - offset)).map fun row =>
    (data.get row col).bind CellValue.get_int

/-- Projector `create_float_array`: rows `offset..height` of column `col`, each cell
projected through `get_float`, absent-or-mismatch becoming null. -/
def create_float_array (data : Range) (col offset height : Nat) :
    List (Option Rat) :=
  (List.range' offset (height - offset)).map fun row =>
    (data.get row col).bind CellValue.get_float

/-- Projector `create_string_array`: rows `offset..height` of column `col`, each cell
projected through `get_string`, absent-or-mismatch becoming null. -/
def create_string_array (data : Range) (col offset height : Nat) :
    List (Option String) :=
  (List.range' offset (height - offset)).map fun row =>
    (data.get row col).bind CellValue.get_string

/-- Projector `create_date_array`: rows `offset..height` of column `col`, each cell
interpreted as a datetime in epoch milliseconds, absent-or-mismatch becoming
null. -/
def create_date_array (data : Range) (col offset height : Nat) :
    List (Option Int) :=
  (List.range' offset (height - offset)).map fun row =>
    (data.get row col).bind CellValue.as_datetime_millis

/-- The per-field dispatch of the `TryFrom` conversion: the six handled
`ArrowDataType` arms produce a typed column; the catch-all arm is
`unreachable!()`, modelled as `none`. The `.null` arm mirrors
`NullArray::new(height - offset)`; its truncating `Nat` subtraction coincides
with the source's usize subtraction exactly under the caller precondition
`offset ≤ height` (below it the source underflows, the caller defect of
§7/§9), so every theorem reaching this arm carries that precondition. -/
def make_column (data : Range) (col offset height : Nat) :
    ArrowDataType → Option TypedArray
  | .boolean => some (.booleanArr (create_boolean_array data col offset height))
  | .int64 => some (.intArr (create_int_array data col offset height))
  | .float64 => some (.floatArr (create_float_array data col offset height))
  | .utf8 => some (.stringArr (create_string_array data col offset height))
  | .date64 => some (.dateArr (create_date_array data col offset height))
  | .null => some (.nullArr (height - offset))
  | .other => Option.none

/-- Consuming the enumerated schema iterator: each `(col_idx, (name, type))`
triple is dispatched through `make_column`; hitting the `unreachable!()` arm
aborts the whole iteration (`none`). -/
def collect_columns (data : Range) (offset height : Nat) :
    List (Nat × String × ArrowDataType) → Option (List (String × TypedArray))
  | [] => some []
  | (col_idx, nm, dt) :: rest =>
    match make_column data col_idx offset height dt with
    | Option.none => Option.none
    | some arr =>
      (collect_columns data offset height rest).map fun cols => (nm, arr) :: cols

/-- The assembled output batch: ordered (column name, typed array) pairs. -/
structure RecordBatch where
  columns : List (String × TypedArray)
deriving DecidableEq

/-- Outcome of the conversion entry point: a batch, a recoverable
`anyhow::Error` (carrying its top-level message), or the `unreachable!()`
defect, which is a panic and not a recoverable error. -/
inductive ConvResult (α : Type) where
  | ok (value : α)
  | err (msg : String)
  | unreachable
deriving DecidableEq

/-- Arrow's `RecordBatch::try_from_iter`: fails on an empty column set and on
mismatched column lengths, otherwise assembles the batch. -/
def RecordBatch.try_from_iter (cols : List (String × TypedArray)) :
    Except String RecordBatch :=
  match cols with
  | [] => Except.error "RecordBatch must have at least one column"
  | c :: rest =>
    if rest.all fun x => x.2.len == c.2.len then Except.ok ⟨c :: rest⟩
    else Except.error "all columns must have the same length"

/-- Conversion `TryFrom<&ExcelSheet> for RecordBatch`: reads `offset` and the grid's
`height` directly, projects one typed column per schema field in order, and
assembles them with `try_from_iter`, annotating any assembly error with the
sheet name (`with_context`). -/
def RecordBatch.try_from (value : ExcelSheet) : ConvResult RecordBatch :=
  match collect_columns value.data value.offset value.data.height value.schema.enum with
  | Option.none => ConvResult.unreachable
  | some cols =>
    match RecordBatch.try_from_iter cols with
    | Except.ok rb => ConvResult.ok rb
    | Except.error _ =>
      ConvResult.err ("Could not convert sheet " ++ value.name ++ " to RecordBatch")


/-- A concrete 3-by-2 grid (the spec's scenario grid): row 0 holds the header
texts, rows 1 and 2 hold an integer and a boolean each. -/
def exGrid : Range where
  height := 3
  width := 2
  get := fun row col =>
    match row, col with
    | 0, 0 => some (CellValue.text "a")
    | 0, 1 => some (CellValue.text "b")
    | 1, 0 => some (CellValue.int 1)
    | 1, 1 => some (CellValue.bool true)
    | 2, 0 => some (CellValue.int 2)
    | 2, 1 => some (CellValue.bool false)
    | _, _ => Option.none

/-- The spec's scenario sheet: header at row 0, one Integer and one Boolean
column. -/
def exSheet : ExcelSheet :=
  ExcelSheet.new "sheet1"
    [("a", ArrowDataType.int64), ("b", ArrowDataType.boolean)] exGrid
    (Header.atRow 0)

/-- The batch the scenario sheet converts to. -/
def exBatch : RecordBatch :=
  ⟨[("a", TypedArray.intArr [some 1, some 2]),
    ("b", TypedArray.booleanArr [some true, some false])]⟩

/-- A single-column grid holding one integer cell above one text cell. -/
def exFloatGrid : Range where
  height := 2
  width := 1
  get := fun row col =>
    match row, col with
    | 0, 0 => some (CellValue.int 3)
    | 1, 0 => some (CellValue.text "x")
    | _, _ => Option.none

/-- A sheet with an empty schema (used to exercise the batch-assembly
failure). -/
def emptySchemaSheet : ExcelSheet :=
  ExcelSheet.new "empty" [] exGrid Header.none

/-- A sheet whose schema has one column while its grid has zero columns: the
schema is wider than the grid. -/
def wideSheet : ExcelSheet :=
  ExcelSheet.new "wide" [("a", ArrowDataType.boolean)]
    { height := 1, width := 0, get := fun _ _ => Option.none } Header.none

/-- A sheet declaring a single Null column over the scenario grid. -/
def nullColSheet : ExcelSheet :=
  ExcelSheet.new "nulls" [("n", ArrowDataType.null)] exGrid Header.none

/-- A column produced by `make_column` has length `height - offset`, whatever
the declared type. -/
theorem make_column_len {data : Range} {col offset height : Nat}
    {dt : ArrowDataType} {arr : TypedArray}
    (h : make_column data col offset height dt = some arr) :
    TypedArray.len arr = height - offset := by
  cases dt <;> simp [make_column] at h <;> subst h <;>
    simp [TypedArray.len, create_boolean_array, create_int_array,
      create_float_array, create_string_array, create_date_array]

/-- Columns collected over an enumerated schema carry the schema's names in
order, and all have length `height - offset`. -/
theorem collect_columns_spec {data : Range} {offset height : Nat}
    (ts : List (Nat × String × ArrowDataType)) (cols : List (String × TypedArray))
    (h : collect_columns data offset height ts = some cols) :
    cols.map Prod.fst = ts.map (fun t => t.2.1)
    ∧ ∀ c ∈ cols, TypedArray.len c.2 = height - offset := by
  induction ts generalizing cols with
  | nil =>
    simp only [collect_columns, Option.some.injEq] at h
    subst h
    simp
  | cons t rest ih =>
    obtain ⟨col_idx, nm, dt⟩ := t
    simp only [collect_columns] at h
    cases hmc : make_column data col_idx offset height dt with
    | none => simp [hmc] at h
    | some arr =>
      simp only [hmc] at h
      cases hrest : collect_columns data offset height rest with
      | none => simp [hrest] at h
      | some cs =>
        simp only [hrest, Option.map_some', Option.some.injEq] at h
        subst h
        obtain ⟨h1, h2⟩ := ih cs hrest
        refine ⟨by simp [h1], ?_⟩
        intro c hc
        rcases List.mem_cons.mp hc with rfl | hc
        · exact make_column_len hmc
        · exact h2 c hc

/-- Enumerating a schema and keeping only the names gives the schema's name
column. -/
theorem enum_map_names (l : List (String × ArrowDataType)) :
    l.enum.map (fun t => t.2.1) = l.map Prod.fst := by
  have h : l.enum.map (fun t => t.2.1) = (l.enum.map Prod.snd).map Prod.fst := by
    rw [List.map_map]
    rfl
  rw [h, List.enum_map_snd]

/-- Index-wise description of the collected columns: entry `i` of the result
is the name of schema entry `i` paired with the column `make_column` builds
for it. -/
theorem collect_columns_get {data : Range} {offset height : Nat}
    (ts : List (Nat × String × ArrowDataType)) (cols : List (String × TypedArray))
    (h : collect_columns data offset height ts = some cols)
    (i : Nat) (t : Nat × String × ArrowDataType) (ht : ts[i]? = some t) :
    ∃ arr, make_column data t.1 offset height t.2.2 = some arr
      ∧ cols[i]? = some (t.2.1, arr) := by
  induction ts generalizing cols i with
  | nil => simp at ht
  | cons hd rest ih =>
    obtain ⟨col_idx, nm, dt⟩ := hd
    simp only [collect_columns] at h
    cases hmc : make_column data col_idx offset height dt with
    | none => simp [hmc] at h
    | some arr =>
      simp only [hmc] at h
      cases hrest : collect_columns data offset height rest with
      | none => simp [hrest] at h
      | some cs =>
        simp only [hrest, Option.map_some', Option.some.injEq] at h
        subst h
        cases i with
        | zero =>
          simp only [List.getElem?_cons_zero, Option.some.injEq] at ht
          subst ht
          exact ⟨arr, hmc, by simp⟩
        | succ n =>
          simp only [List.getElem?_cons_succ] at ht
          obtain ⟨arr2, ha, hb⟩ := ih cs hrest n ht
          exact ⟨arr2, ha, by simpa using hb⟩

/-- When every declared type is one of the six supported arms, column
collection succeeds and yields one column per schema entry. -/
theorem collect_columns_isSome {data : Range} {offset height : Nat}
    (ts : List (Nat × String × ArrowDataType))
    (h : ∀ t ∈ ts, t.2.2 ≠ ArrowDataType.other) :
    ∃ cols, collect_columns data offset height ts = some cols
      ∧ cols.length = ts.length := by
  induction ts with
  | nil => exact ⟨[], rfl, rfl⟩
  | cons hd rest ih =>
    obtain ⟨col_idx, nm, dt⟩ := hd
    have hdt : dt ≠ ArrowDataType.other := h (col_idx, nm, dt) (List.mem_cons_self _ _)
    obtain ⟨cs, hcs, hlen⟩ := ih fun t htm => h t (List.mem_cons_of_mem _ htm)
    have harr : ∃ arr, make_column data col_idx offset height dt = some arr := by
      cases dt
      case other => exact absurd rfl hdt
      all_goals exact ⟨_, rfl⟩
    obtain ⟨arr, harr⟩ := harr
    exact ⟨(nm, arr) :: cs, by simp [collect_columns, harr, hcs], by simp [hlen]⟩

/-- Batch assembly returns exactly the columns it was given when it
succeeds. -/
theorem try_from_iter_ok {cols : List (String × TypedArray)} {rb : RecordBatch}
    (h : RecordBatch.try_from_iter cols = Except.ok rb) :
    rb.columns = cols := by
  cases cols with
  | nil => simp [RecordBatch.try_from_iter] at h
  | cons c rest =>
    simp only [RecordBatch.try_from_iter] at h
    split at h
    · cases h
      rfl
    · exact absurd h (by simp)

/-- Batch assembly succeeds on any nonempty column set of uniform length. -/
theorem try_from_iter_uniform {cols : List (String × TypedArray)} {k : Nat}
    (hne : cols ≠ []) (hlen : ∀ c ∈ cols, TypedArray.len c.2 = k) :
    RecordBatch.try_from_iter cols = Except.ok ⟨cols⟩ := by
  cases cols with
  | nil => exact absurd rfl hne
  | cons c rest =>
    have hall : (rest.all fun x => x.2.len == c.2.len) = true := by
      simp only [List.all_eq_true]
      intro x hx
      have h1 := hlen x (List.mem_cons_of_mem _ hx)
      have h2 := hlen c (List.mem_cons_self _ _)
      simp [h1, h2]
    simp [RecordBatch.try_from_iter, hall]

/-- Element `row - offset` of a projected column is the projection of the
grid's row `row`, whenever `offset ≤ row < height`. -/
theorem getElem?_proj {α : Type} (f : Nat → α) (offset height row : Nat)
    (h1 : offset ≤ row) (h2 : row < height) :
    ((List.range' offset (height - offset)).map f)[row - offset]? = some (f row) := by
  have hlt : row - offset < height - offset := by omega
  have hlen : row - offset < ((List.range' offset (height - offset)).map f).length := by
    simpa using hlt
  have hro : offset + (row - offset) = row := by omega
  rw [List.getElem?_eq_getElem hlen]
  simp only [List.getElem_map, List.getElem_range'_1, hro]

/-- C4: `Header::new` resolves its two optional inputs by precedence (a name
list wins over a row index, which wins over no header), and `header_offset`
is `r + 1` for `At(r)`, `0` for `None`, `0` for `With(_)`; in particular, when
both a name list and a row index are supplied, the offset is `0`. -/
theorem C4_header_precedence_and_offset :
    (∀ (hr : Option Nat) (ns : List String),
      Header.new hr (some ns) = Header.withNames ns)
    ∧ (∀ r : Nat, Header.new (some r) Option.none = Header.atRow r)
    ∧ Header.new Option.none Option.none = Header.none
    ∧ (∀ r : Nat, (Header.atRow r).header_offset = r + 1)
    ∧ Header.none.header_offset = 0
    ∧ (∀ ns : List String, (Header.withNames ns).header_offset = 0)
    ∧ (∀ (r : Nat) (ns : List String),
      (Header.new (some r) (some ns)).header_offset = 0) :=
  ⟨fun _ _ => rfl, fun _ => rfl, rfl, fun _ => rfl, rfl, fun _ => rfl,
    fun _ _ => rfl⟩

/-- C2: on a freshly constructed sheet whose grid height is at least the
header offset, `height()` returns `grid.height() - offset()`; the statement is
over the integers, so the subtraction is the mathematical one, and the
precondition `offset ≤ grid.height()` is the hypothesis the spec imposes on
callers. -/
theorem C2_height_value (name : String) (schema : List (String × ArrowDataType))
    (data : Range) (header : Header)
    (h : header.header_offset ≤ data.height) :
    (((ExcelSheet.new name schema data header).heightM).1 : Int)
      = (data.height : Int) - (header.header_offset : Int) := by
  simp only [ExcelSheet.new, ExcelSheet.heightM, ExcelSheet.offset]
  omega

/-- Witness for C2 at a concrete sheet: header at row 0 over the height-3
scenario grid. -/
theorem C2_height_value_witness :
    (Header.atRow 0).header_offset ≤ exGrid.height
    ∧ (((ExcelSheet.new "sheet1" [] exGrid (Header.atRow 0)).heightM).1 : Int)
      = (exGrid.height : Int) - ((Header.atRow 0).header_offset : Int) :=
  ⟨by decide, C2_height_value "sheet1" [] exGrid (Header.atRow 0) (by decide)⟩

/-- C7: a second call to `width()` or `height()` returns the value of the
first call, even when the underlying grid has been replaced in between — the
first call froze the value in the cache. -/
theorem C7_geometry_memoized :
    ∀ (s : ExcelSheet) (g : Range),
      (ExcelSheet.widthM { (ExcelSheet.widthM s).2 with data := g }).1
        = (ExcelSheet.widthM s).1
      ∧ (ExcelSheet.heightM { (ExcelSheet.heightM s).2 with data := g }).1
        = (ExcelSheet.heightM s).1 := by
  intro s g
  constructor
  · cases hw : s.width <;> simp [ExcelSheet.widthM, hw]
  · cases hh : s.height <;> simp [ExcelSheet.heightM, hh]

/-- C10: the conversion entry point takes the sheet by shared reference; in
the embedding it is a pure function of the sheet, so name, schema, header,
grid and caches are untouched, and moreover its result does not depend on the
width/height memoization caches at all — it reads the grid's height directly,
never through the caching accessors, so not even incidental memoization
happens. -/
theorem C10_try_from_ignores_caches (s : ExcelSheet) (w h : Option Nat) :
    RecordBatch.try_from { s with width := w, height := h }
      = RecordBatch.try_from s := by
  cases s
  rfl

/-- C1: whenever the conversion entry point succeeds, the batch has exactly
`len(schema)` columns carrying the schema's names in schema order, and every
column has length `grid.height() - offset()` (stated over the integers, under
the spec's caller precondition `offset ≤ grid.height()`). -/
theorem C1_batch_shape (s : ExcelSheet) (b : RecordBatch)
    (hof : s.offset ≤ s.data.height)
    (h : RecordBatch.try_from s = ConvResult.ok b) :
    b.columns.length = s.schema.length
    ∧ b.columns.map Prod.fst = s.schema.map Prod.fst
    ∧ ∀ c ∈ b.columns, (TypedArray.len c.2 : Int)
        = (s.data.height : Int) - (s.offset : Int) := by
  unfold RecordBatch.try_from at h
  cases hcc : collect_columns s.data s.offset s.data.height s.schema.enum with
  | none => simp [hcc] at h
  | some cols =>
    simp only [hcc] at h
    cases hti : RecordBatch.try_from_iter cols with
    | error e => simp [hti] at h
    | ok rb =>
      simp only [hti] at h
      cases h
      have hcols := try_from_iter_ok hti
      obtain ⟨h1, h2⟩ := collect_columns_spec _ _ hcc
      refine ⟨?_, ?_, ?_⟩
      · calc b.columns.length = (b.columns.map Prod.fst).length := by simp
          _ = (s.schema.enum.map fun t => t.2.1).length := by rw [hcols, h1]
          _ = (s.schema.map Prod.fst).length := by rw [enum_map_names]
          _ = s.schema.length := by simp
      · rw [hcols, h1, enum_map_names]
      · intro c hc
        rw [hcols] at hc
        have hk := h2 c hc
        omega

/-- Witness for C1 at the spec's scenario sheet: 3-by-2 grid, header at
row 0, one Integer and one Boolean column. -/
theorem C1_batch_shape_witness :
    exSheet.offset ≤ exSheet.data.height
    ∧ RecordBatch.try_from exSheet = ConvResult.ok exBatch
    ∧ (exBatch.columns.length = exSheet.schema.length
      ∧ exBatch.columns.map Prod.fst = exSheet.schema.map Prod.fst
      ∧ ∀ c ∈ exBatch.columns, (TypedArray.len c.2 : Int)
          = (exSheet.data.height : Int) - (exSheet.offset : Int)) :=
  ⟨by decide, by decide, C1_batch_shape exSheet exBatch (by decide) (by decide)⟩

/-- C9: the conversion returns a recoverable error only on structural batch
assembly failure — concretely, only when the schema contributes no columns at
all — and that error's message is the sheet-name annotation added by
`with_context`; per-cell mismatches are absorbed as nulls and never surface as
an error. -/
theorem C9_error_policy (s : ExcelSheet) (msg : String)
    (h : RecordBatch.try_from s = ConvResult.err msg) :
    msg = "Could not convert sheet " ++ s.name ++ " to RecordBatch"
    ∧ (∃ pre post, msg = pre ++ s.name ++ post)
    ∧ s.schema = [] := by
  unfold RecordBatch.try_from at h
  cases hcc : collect_columns s.data s.offset s.data.height s.schema.enum with
  | none => simp [hcc] at h
  | some cols =>
    simp only [hcc] at h
    cases hti : RecordBatch.try_from_iter cols with
    | ok rb => simp [hti] at h
    | error e =>
      simp only [hti, ConvResult.err.injEq] at h
      obtain ⟨h1, h2⟩ := collect_columns_spec _ _ hcc
      have hnil : cols = [] := by
        by_contra hne
        have := try_from_iter_uniform hne h2
        rw [hti] at this
        exact absurd this (by simp)
      subst hnil
      have hschema : s.schema = [] := by
        have hmap : s.schema.map Prod.fst = [] := by
          rw [← enum_map_names, ← h1]
          rfl
        exact List.map_eq_nil_iff.mp hmap
      exact ⟨h.symm, ⟨"Could not convert sheet ", " to RecordBatch", h.symm⟩, hschema⟩

/-- Witness for C9 at a sheet with an empty schema, the one situation in
which assembly fails. -/
theorem C9_error_policy_witness :
    RecordBatch.try_from emptySchemaSheet
      = ConvResult.err ("Could not convert sheet empty to RecordBatch")
    ∧ ("Could not convert sheet empty to RecordBatch"
        = "Could not convert sheet " ++ emptySchemaSheet.name ++ " to RecordBatch"
      ∧ (∃ pre post, "Could not convert sheet empty to RecordBatch"
          = pre ++ emptySchemaSheet.name ++ post)
      ∧ emptySchemaSheet.schema = []) :=
  ⟨by decide, C9_error_policy emptySchemaSheet _ (by decide)⟩

/-- C3: in a column declared Integer, a cell that is absent or not
integer-typed projects to null at its row, and a cell holding integer value
`v` projects to exactly `v` (the projector is `create_int_array`, invoked by
the conversion with `height = grid.height()`). -/
theorem C3_int_column_semantics (data : Range) (col offset row : Nat)
    (h1 : offset ≤ row) (h2 : row < data.height) :
    ((data.get row col = Option.none
        ∨ ∀ v : Int, data.get row col ≠ some (CellValue.int v)) →
      (create_int_array data col offset data.height)[row - offset]?
        = some Option.none)
    ∧ ∀ v : Int, data.get row col = some (CellValue.int v) →
      (create_int_array data col offset data.height)[row - offset]?
        = some (some v) := by
  have key := getElem?_proj (fun r => (data.get r col).bind CellValue.get_int)
    offset data.height row h1 h2
  constructor
  · intro hc
    simp only [create_int_array]
    rw [key]
    show some ((data.get row col).bind CellValue.get_int) = some Option.none
    rcases hc with hc | hc
    · rw [hc]
      rfl
    · cases hg : data.get row col with
      | none => rfl
      | some c =>
        cases c with
        | int i => exact absurd hg (hc i)
        | bool b => rfl
        | float f => rfl
        | text t => rfl
        | datetime m => rfl
        | empty => rfl
  · intro v hv
    simp only [create_int_array]
    rw [key]
    show some ((data.get row col).bind CellValue.get_int) = some (some v)
    rw [hv]
    rfl

/-- Witness for C3 at the scenario grid, column 0, offset 1, row 1, whose
cell holds the integer 1. -/
theorem C3_int_column_semantics_witness :
    (1 : Nat) ≤ 1 ∧ (1 : Nat) < exGrid.height
    ∧ (((exGrid.get 1 0 = Option.none
          ∨ ∀ v : Int, exGrid.get 1 0 ≠ some (CellValue.int v)) →
        (create_int_array exGrid 0 1 exGrid.height)[1 - 1]? = some Option.none)
      ∧ ∀ v : Int, exGrid.get 1 0 = some (CellValue.int v) →
        (create_int_array exGrid 0 1 exGrid.height)[1 - 1]? = some (some v)) :=
  ⟨by decide, by decide, C3_int_column_semantics exGrid 0 1 1 (by decide) (by decide)⟩

/-- C5: in a column declared Float, a cell holding an integer value coerces
to the equal float value, and a cell holding text projects to null (the
projector is `create_float_array`; float values are exact rationals in the
embedding, so "equal float value" is the exact cast of the integer). -/
theorem C5_float_column_coercion (data : Range) (col offset row : Nat)
    (h1 : offset ≤ row) (h2 : row < data.height) :
    (∀ v : Int, data.get row col = some (CellValue.int v) →
      (create_float_array data col offset data.height)[row - offset]?
        = some (some (v : Rat)))
    ∧ ∀ t : String, data.get row col = some (CellValue.text t) →
      (create_float_array data col offset data.height)[row - offset]?
        = some Option.none := by
  have key := getElem?_proj (fun r => (data.get r col).bind CellValue.get_float)
    offset data.height row h1 h2
  constructor
  · intro v hv
    simp only [create_float_array]
    rw [key]
    show some ((data.get row col).bind CellValue.get_float) = some (some (v : Rat))
    rw [hv]
    rfl
  · intro t ht
    simp only [create_float_array]
    rw [key]
    show some ((data.get row col).bind CellValue.get_float) = some Option.none
    rw [ht]
    rfl

/-- Witness for C5 on a one-column grid with an integer cell at row 0 and a
text cell at row 1, declared Float with offset 0. -/
theorem C5_float_column_coercion_witness :
    (0 : Nat) ≤ 0 ∧ (0 : Nat) < exFloatGrid.height
    ∧ (create_float_array exFloatGrid 0 0 exFloatGrid.height)[0 - 0]?
        = some (some ((3 : Int) : Rat))
    ∧ (create_float_array exFloatGrid 0 0 exFloatGrid.height)[1 - 0]?
        = some Option.none :=
  ⟨by decide, by decide,
    (C5_float_column_coercion exFloatGrid 0 0 0 (by decide) (by decide)).1 3 (by decide),
    (C5_float_column_coercion exFloatGrid 0 0 1 (by decide) (by decide)).2 "x" (by decide)⟩

/-- C8: a column declared Null projects, for every grid and regardless of the
grid's cell contents, to the all-null array of length
`grid.height() - offset()` (the second conjunct states that length over the
integers, under the spec's caller precondition). -/
theorem C8_null_column (s : ExcelSheet) (b : RecordBatch) (i : Nat) (nm : String)
    (hof : s.offset ≤ s.data.height)
    (hi : s.schema[i]? = some (nm, ArrowDataType.null))
    (h : RecordBatch.try_from s = ConvResult.ok b) :
    b.columns[i]? = some (nm, TypedArray.nullArr (s.data.height - s.offset))
    ∧ (TypedArray.len (TypedArray.nullArr (s.data.height - s.offset)) : Int)
        = (s.data.height : Int) - (s.offset : Int) := by
  unfold RecordBatch.try_from at h
  cases hcc : collect_columns s.data s.offset s.data.height s.schema.enum with
  | none => simp [hcc] at h
  | some cols =>
    simp only [hcc] at h
    cases hti : RecordBatch.try_from_iter cols with
    | error e => simp [hti] at h
    | ok rb =>
      simp only [hti] at h
      cases h
      have hcols := try_from_iter_ok hti
      have henum : s.schema.enum[i]? = some (i, (nm, ArrowDataType.null)) := by
        rw [List.getElem?_enum, hi]
        rfl
      obtain ⟨arr, ha, hb⟩ :=
        collect_columns_get _ _ hcc i (i, (nm, ArrowDataType.null)) henum
      have harr : arr = TypedArray.nullArr (s.data.height - s.offset) := by
        simp only [make_column, Option.some.injEq] at ha
        exact ha.symm
      subst harr
      refine ⟨?_, by simp [TypedArray.len]; omega⟩
      rw [hcols]
      exact hb

/-- Witness for C8: a single declared-Null column over the scenario grid
projects to three nulls. -/
theorem C8_null_column_witness :
    nullColSheet.offset ≤ nullColSheet.data.height
    ∧ nullColSheet.schema[0]? = some ("n", ArrowDataType.null)
    ∧ RecordBatch.try_from nullColSheet
        = ConvResult.ok ⟨[("n", TypedArray.nullArr 3)]⟩
    ∧ ((⟨[("n", TypedArray.nullArr 3)]⟩ : RecordBatch).columns[0]?
        = some ("n", TypedArray.nullArr (nullColSheet.data.height - nullColSheet.offset))
      ∧ (TypedArray.len
            (TypedArray.nullArr (nullColSheet.data.height - nullColSheet.offset)) : Int)
          = (nullColSheet.data.height : Int) - (nullColSheet.offset : Int)) :=
  ⟨by decide, by decide, by decide,
    C8_null_column nullColSheet ⟨[("n", TypedArray.nullArr 3)]⟩ 0 "n"
      (by decide) (by decide) (by decide)⟩

/-- Counterexample to C6: on a sheet whose schema (one Boolean column)
exceeds the grid's column count (zero), the conversion neither panics nor
errors — it silently produces a batch whose out-of-range column is all null,
because `Range::get` returns absent out of bounds and the projector absorbs
that as nulls; the unreachable/invalid-type arm is reached only by a declared
type outside the supported set. -/
theorem C6_counterexample :
    wideSheet.schema.length > wideSheet.data.width
    ∧ RecordBatch.try_from wideSheet
        = ConvResult.ok ⟨[("a", TypedArray.booleanArr [Option.none])]⟩ := by
  constructor
  · decide
  · rfl

/-- C6 amended: under the spec's caller precondition `offset ≤ grid.height()`,
a schema column count exceeding the grid's column count does not surface at
projection time at all — whenever, additionally, every declared type is in
the supported set and the schema is nonempty, the conversion silently
succeeds, excess columns included; the unreachable/invalid-type defect is
tied solely to unsupported declared types. (Outside the precondition the
source's `NullArray::new(height - offset)` underflows its usize subtraction,
the separate caller defect of §7/§9.) -/
theorem C6_wide_schema_silently_succeeds (s : ExcelSheet)
    (_hof : s.offset ≤ s.data.height)
    (hne : s.schema ≠ [])
    (hsupp : ∀ f ∈ s.schema, f.2 ≠ ArrowDataType.other)
    (_hw : s.schema.length > s.data.width) :
    ∃ b, RecordBatch.try_from s = ConvResult.ok b := by
  have hsupp' : ∀ t ∈ s.schema.enum, t.2.2 ≠ ArrowDataType.other := by
    intro t ht
    have hmem : t.2 ∈ s.schema := by
      have := List.mem_map_of_mem Prod.snd ht
      rwa [List.enum_map_snd] at this
    exact hsupp t.2 hmem
  obtain ⟨cols, hcc, hlen⟩ :=
    @collect_columns_isSome s.data s.offset s.data.height s.schema.enum hsupp'
  have hcne : cols ≠ [] := by
    intro hnil
    rw [hnil] at hlen
    have : s.schema.enum = [] := List.length_eq_zero.mp hlen.symm
    have := congrArg (List.map Prod.snd) this
    rw [List.enum_map_snd] at this
    exact hne (by simpa using this)
  obtain ⟨_, h2⟩ := collect_columns_spec _ _ hcc
  refine ⟨⟨cols⟩, ?_⟩
  unfold RecordBatch.try_from
  simp only [hcc, try_from_iter_uniform hcne h2]

/-- Witness for the amended C6 at the concrete one-column schema over the
zero-column grid. -/
theorem C6_wide_schema_witness :
    wideSheet.offset ≤ wideSheet.data.height
    ∧ wideSheet.schema ≠ []
    ∧ (∀ f ∈ wideSheet.schema, f.2 ≠ ArrowDataType.other)
    ∧ wideSheet.schema.length > wideSheet.data.width
    ∧ ∃ b, RecordBatch.try_from wideSheet = ConvResult.ok b :=
  ⟨by decide, by decide, by decide, by decide,
    C6_wide_schema_silently_succeeds wideSheet (by decide) (by decide) (by decide)
      (by decide)⟩

end Excelsheet
